import Mathlib

/-!
Verification development for the Sebaka steering sandbox.

The source's `f32` arithmetic is modelled over `ℝ`; the glam vector helpers
(`normalize_or_zero`, `clamp_length_max`, `length`, `length_squared`) are
translated from their glam implementations.  IEEE special values are handled
where they matter and are noted at the definition concerned.
-/

namespace Sebaka

/-- glam `Vec3` with `f32` components modelled as reals. -/
structure Vec3 where
  x : ℝ
  y : ℝ
  z : ℝ

namespace Vec3

def zero : Vec3 := ⟨0, 0, 0⟩

def sub (a b : Vec3) : Vec3 := ⟨a.x - b.x, a.y - b.y, a.z - b.z⟩

/-- Scalar multiplication, `scalar * vector` in glam. -/
def smul (c : ℝ) (a : Vec3) : Vec3 := ⟨c * a.x, c * a.y, c * a.z⟩

/-- glam `length_squared`: dot of the vector with itself. -/
def lengthSquared (a : Vec3) : ℝ := a.x ^ 2 + a.y ^ 2 + a.z ^ 2

/-- glam `length`: square root of `length_squared`. -/
noncomputable def length (a : Vec3) : ℝ := Real.sqrt a.lengthSquared

end Vec3

/-- glam `Vec3::normalize_or_zero`: `self * (1/length)` when the reciprocal of
the length is finite and positive (over the reals: when the length is
positive), the zero vector otherwise. -/
noncomputable def normalizeOrZero (v : Vec3) : Vec3 :=
  if 0 < v.length then Vec3.smul v.length⁻¹ v else Vec3.zero

/-- glam `Vec3::clamp_length_max`: rescale to length `m` when
`length_squared > m * m`, identity otherwise. -/
noncomputable def clampLengthMax (v : Vec3) (m : ℝ) : Vec3 :=
  if v.lengthSquared > m * m then Vec3.smul (m * (Real.sqrt v.lengthSquared)⁻¹) v else v

/-- `steering.rs`: the tagged behaviour variants.  `Entity` handles are
modelled as `Nat` ids and `AxisAngle` as a real angle. -/
inductive SteeringBehaviour where
  | seek (target : Nat)
  | arrive (target : Nat) (finalAngle : Option ℝ)
  | persue (target : Nat) (minDistance : Option ℝ)
  | flee (target : Nat)
  | evade (target : Nat) (minDistance : Option ℝ)
  | followPath (path : List Vec3) (currentIndex : Nat)
  | interpose (fromTarget toTarget : Nat)
  | hide (target : Nat)

/-- The Seek arm of `steering_behaviour` (main.rs:396-409), after the target
transform has been resolved: caps default to 1000 / 100 when absent. -/
noncomputable def seekLaw (maxVelocity maxAcceleration : Option ℝ)
    (position velocity targetPos : Vec3) : Vec3 :=
  let maxV := maxVelocity.getD 1000
  let maxA := maxAcceleration.getD 100
  let difference := targetPos.sub position
  let desiredVelocity := Vec3.smul maxV (normalizeOrZero difference)
  clampLengthMax (desiredVelocity.sub velocity) maxA

/-- The Arrive arm of `steering_behaviour` (main.rs:410-428), after the target
transform has been resolved: caps default to 1000 / 100 when absent, and the
velocity is scaled by `1 + |velocity| * 10 / max(|difference|, 1)`. -/
noncomputable def arriveLaw (maxVelocity maxAcceleration : Option ℝ)
    (position velocity targetPos : Vec3) : Vec3 :=
  let maxV := maxVelocity.getD 1000
  let maxA := maxAcceleration.getD 100
  let difference := targetPos.sub position
  let desiredVelocity := Vec3.smul maxV (normalizeOrZero difference)
  clampLengthMax
    (desiredVelocity.sub
      (Vec3.smul (1 + velocity.length * 10 / max difference.length 1) velocity))
    maxA

/-- The Seek control law written as the spec words it:
`clamp_magnitude(normalize_or_zero(target.position - self.position) * max_velocity
 - velocity.linear, max_acceleration)`, with the caps already resolved. -/
noncomputable def seekLawSpec (maxV maxA : ℝ) (position velocity targetPos : Vec3) : Vec3 :=
  clampLengthMax ((Vec3.smul maxV (normalizeOrZero (targetPos.sub position))).sub velocity) maxA

/-- The Arrive control law written as the spec words it:
`clamp_magnitude(normalize_or_zero(difference) * max_velocity
 - velocity.linear * (1 + |velocity.linear| * 10 / max(|difference|, 1)),
 max_acceleration)`, with the caps already resolved. -/
noncomputable def arriveLawSpec (maxV maxA : ℝ) (position velocity targetPos : Vec3) : Vec3 :=
  let difference := targetPos.sub position
  clampLengthMax
    ((Vec3.smul maxV (normalizeOrZero difference)).sub
      (Vec3.smul (1 + velocity.length * 10 / max difference.length 1) velocity))
    maxA

/-- A live world entity: id, transform translation, and whether it carries the
`MovementMarker` component. -/
structure WorldEntity where
  id : Nat
  translation : Vec3
  isMovementMarker : Bool

/-- `target_query.get(*target)` for
`Query<&Transform, With<MovementMarker>>` (main.rs:390, 397, 414): the lookup
succeeds only when the referenced entity is live and carries `MovementMarker`. -/
def targetQueryGet (world : List WorldEntity) (target : Nat) : Option Vec3 :=
  (world.find? (fun e => e.id == target && e.isMovementMarker)).map (·.translation)

/-- The ways a `steering_behaviour` iteration can panic: `.unwrap()` on a
failed target lookup, or the `todo!()` placeholder arms. -/
inductive SteeringPanic where
  | unwrapFailed
  | todoUnimplemented
deriving DecidableEq

/-- One agent's iteration of the `steering_behaviour` loop body
(main.rs:395-447): Seek and Arrive unwrap the target lookup (panicking when it
fails) and write the law's output; every other variant is `todo!()`, which
panics. -/
noncomputable def steeringStep (world : List WorldEntity) (behaviour : SteeringBehaviour)
    (position velocity : Vec3) (maxVelocity maxAcceleration : Option ℝ) :
    Except SteeringPanic Vec3 :=
  match behaviour with
  | .seek target =>
      match targetQueryGet world target with
      | none => .error .unwrapFailed
      | some t => .ok (seekLaw maxVelocity maxAcceleration position velocity t)
  | .arrive target _ =>
      match targetQueryGet world target with
      | none => .error .unwrapFailed
      | some t => .ok (arriveLaw maxVelocity maxAcceleration position velocity t)
  | .persue _ _ => .error .todoUnimplemented
  | .flee _ => .error .todoUnimplemented
  | .evade _ _ => .error .todoUnimplemented
  | .followPath _ _ => .error .todoUnimplemented
  | .interpose _ _ => .error .todoUnimplemented
  | .hide _ => .error .todoUnimplemented

/-- The mutable per-agent state read and written by `steering_behaviour`. -/
structure AgentState where
  behaviour : SteeringBehaviour
  position : Vec3
  velocity : Vec3
  maxVelocity : Option ℝ
  maxAcceleration : Option ℝ
  acceleration : Vec3

/-- A whole `steering_behaviour` tick over the queried agents: a panic in any
iteration aborts the system (and the process), so an error short-circuits and
no per-agent result survives. -/
noncomputable def steeringTick (world : List WorldEntity) :
    List AgentState → Except SteeringPanic (List AgentState)
  | [] => .ok []
  | a :: rest =>
    match steeringStep world a.behaviour a.position a.velocity a.maxVelocity a.maxAcceleration with
    | .error e => .error e
    | .ok acc =>
      match steeringTick world rest with
      | .error e => .error e
      | .ok rest2 => .ok ({ a with acceleration := acc } :: rest2)

/-- `f32::EPSILON` = 2⁻²³. -/
noncomputable def f32Epsilon : ℝ := 1 / 2 ^ 23

/-- `Vec2::Y.angle_between(v.truncate())` (main.rs:329, 366): the signed angle
from `(0,1)` to `(v.x, v.y)`, i.e. `atan2(perp_dot, dot) = atan2(-v.x, v.y)`,
modelled as the complex argument of `v.y + (-v.x)·i`, in `(-π, π]`. -/
noncomputable def angleFromYAxis (v : Vec3) : ℝ :=
  Complex.arg ⟨v.y, -v.x⟩

/-- The angle computed by the `orientation` system (main.rs:327-336): the
signed angle from `Vec2::Y`, plus one full turn when it is negative. -/
noncomputable def clockwiseAngle (v : Vec3) : ℝ :=
  let angle := angleFromYAxis v
  if angle < 0 then 2 * Real.pi + angle else angle

/-- The `orientation` system (main.rs:324-340) for one entity: rotation becomes
`clockwiseAngle velocity` when `length_squared > f32::EPSILON`, and is left
unchanged otherwise. -/
noncomputable def orientation (velocity : Vec3) (rotation : ℝ) : ℝ :=
  if velocity.lengthSquared > f32Epsilon then clockwiseAngle velocity else rotation

/-- The `ThrusterEffect` component: a nozzle's particle-size factor and fixed
mount angle. -/
structure ThrusterEffect where
  size : ℝ
  angle : ℝ

/-- `current_power` (main.rs:358-362): acceleration magnitude over the cap,
the cap defaulting to the current magnitude itself when absent.  With no cap
and zero acceleration the source computes the `f32` quotient `0.0 / 0.0 = NaN`;
over the reals the same quotient is `0` — in either model it is not `1`. -/
noncomputable def currentPower (acceleration : Vec3) (maxAcceleration : Option ℝ) : ℝ :=
  acceleration.length / maxAcceleration.getD acceleration.length

/-- Rust `f32::clamp(min, max)`. -/
noncomputable def rustClamp (x lo hi : ℝ) : ℝ := min (max x lo) hi

/-- `alignement` (main.rs:369-370): `(1 / |a/π - mount/π| - 1.5).clamp(0, 5)`.
When the two angles coincide the source divides `1.0` by `0.0`, which is `+∞`
in `f32`, and `clamp(0., 5.)` maps `+∞` to `5`; the real-number embedding makes
that case an explicit branch. -/
noncomputable def alignement (accelAngle mountAngle : ℝ) : ℝ :=
  if |accelAngle / Real.pi - mountAngle / Real.pi| = 0 then 5
  else rustClamp (1 / |accelAngle / Real.pi - mountAngle / Real.pi| - 1.5) 0 5

/-- The wrapped heading-relative acceleration angle (main.rs:365-368):
`accel_angle = Vec2::Y.angle_between(accel.truncate()) + π`, then
`min(2π - |ship - accel_angle|, |ship - accel_angle|)`.  `shipAngle` stands for
`transform.rotation.to_axis_angle().1`. -/
noncomputable def wrappedAccelAngle (shipAngle : ℝ) (acceleration : Vec3) : ℝ :=
  let accelAngle := angleFromYAxis acceleration + Real.pi
  min (2 * Real.pi - |shipAngle - accelAngle|) |shipAngle - accelAngle|

/-- The spawner rate set by `thruster_power` (main.rs:372-374):
`current_power * alignement * thruster.size * 200`. -/
noncomputable def thrusterRate (shipAngle : ℝ) (acceleration : Vec3)
    (maxAcceleration : Option ℝ) (thruster : ThrusterEffect) : ℝ :=
  currentPower acceleration maxAcceleration
    * alignement (wrappedAccelAngle shipAngle acceleration) thruster.angle
    * thruster.size * 200

/-- `move_movement_marker_on_click` (main.rs:525-538): on a right-button
release the marker translation becomes the world cursor position when one is
known (`unwrap_or` keeps the old translation otherwise); with no release event
the system body does not run. -/
def move_movement_marker_on_click (justReleasedRight : Bool)
    (mouseWorldPosition : Option Vec3) (markerTranslation : Vec3) : Vec3 :=
  if justReleasedRight then mouseWorldPosition.getD markerTranslation
  else markerTranslation

/-! ### Helper lemmas about the glam vector operations -/

lemma lengthSquared_nonneg (v : Vec3) : 0 ≤ v.lengthSquared := by
  unfold Vec3.lengthSquared; positivity

lemma length_nonneg (v : Vec3) : 0 ≤ v.length := Real.sqrt_nonneg _

lemma length_sq (v : Vec3) : v.length ^ 2 = v.lengthSquared :=
  Real.sq_sqrt (lengthSquared_nonneg v)

lemma lengthSquared_y (b : ℝ) : (Vec3.mk 0 b 0).lengthSquared = b ^ 2 := by
  unfold Vec3.lengthSquared; ring

lemma length_y (b : ℝ) : (Vec3.mk 0 b 0).length = |b| := by
  unfold Vec3.length
  rw [lengthSquared_y]
  exact Real.sqrt_sq_eq_abs b

lemma length_zero : Vec3.zero.length = 0 := by
  have h : |(0 : ℝ)| = 0 := abs_zero
  simpa [Vec3.zero] using (length_y 0).trans h

lemma lengthSquared_smul (c : ℝ) (v : Vec3) :
    (Vec3.smul c v).lengthSquared = c ^ 2 * v.lengthSquared := by
  unfold Vec3.smul Vec3.lengthSquared; ring

lemma length_smul (c : ℝ) (v : Vec3) : (Vec3.smul c v).length = |c| * v.length := by
  unfold Vec3.length
  rw [lengthSquared_smul, Real.sqrt_mul (sq_nonneg c), Real.sqrt_sq_eq_abs]

lemma smul_zero_vec (c : ℝ) : Vec3.smul c Vec3.zero = Vec3.zero := by
  unfold Vec3.smul Vec3.zero; simp

lemma normalizeOrZero_zero : normalizeOrZero Vec3.zero = Vec3.zero := by
  unfold normalizeOrZero
  rw [length_zero]
  simp

lemma normalizeOrZero_y (b : ℝ) (hb : 0 < b) :
    normalizeOrZero (Vec3.mk 0 b 0) = Vec3.mk 0 1 0 := by
  unfold normalizeOrZero
  rw [length_y, abs_of_pos hb, if_pos hb]
  unfold Vec3.smul
  simp [inv_mul_cancel₀ hb.ne']

lemma clampLengthMax_of_le (v : Vec3) (m : ℝ) (h : v.lengthSquared ≤ m * m) :
    clampLengthMax v m = v := by
  unfold clampLengthMax
  rw [if_neg (not_lt.mpr h)]

lemma clampLengthMax_of_gt (v : Vec3) (m : ℝ) (h : m * m < v.lengthSquared) :
    clampLengthMax v m = Vec3.smul (m * v.length⁻¹) v := by
  unfold clampLengthMax Vec3.length
  rw [if_pos h]

lemma clampLengthMax_zero (m : ℝ) : clampLengthMax Vec3.zero m = Vec3.zero := by
  apply clampLengthMax_of_le
  have h : Vec3.zero.lengthSquared = 0 := by unfold Vec3.zero Vec3.lengthSquared; ring
  rw [h]
  exact mul_self_nonneg m

lemma length_clampLengthMax_le (v : Vec3) (m : ℝ) (hm : 0 ≤ m) :
    (clampLengthMax v m).length ≤ m := by
  by_cases h : m * m < v.lengthSquared
  · rw [clampLengthMax_of_gt v m h, length_smul]
    have hlen : m < v.length := by
      refine lt_of_pow_lt_pow_left₀ 2 (length_nonneg v) ?_
      rw [length_sq]
      calc m ^ 2 = m * m := sq m
        _ < v.lengthSquared := h
    have hl0 : 0 < v.length := lt_of_le_of_lt hm hlen
    rw [abs_of_nonneg (mul_nonneg hm (inv_nonneg.mpr hl0.le)),
      mul_assoc, inv_mul_cancel₀ hl0.ne', mul_one]
  · push_neg at h
    rw [clampLengthMax_of_le v m h]
    calc v.length ≤ Real.sqrt (m * m) := Real.sqrt_le_sqrt h
      _ = m := Real.sqrt_mul_self hm

lemma clampLengthMax_y_of_gt (b m : ℝ) (h : m * m < b ^ 2) :
    clampLengthMax (Vec3.mk 0 b 0) m = Vec3.mk 0 (m * |b|⁻¹ * b) 0 := by
  rw [clampLengthMax_of_gt _ m (by rw [lengthSquared_y]; exact h), length_y]
  unfold Vec3.smul
  simp

lemma seekLaw_def (mV mA : Option ℝ) (p v t : Vec3) :
    seekLaw mV mA p v t
      = clampLengthMax ((Vec3.smul (mV.getD 1000) (normalizeOrZero (t.sub p))).sub v)
          (mA.getD 100) := rfl

lemma arriveLaw_def (mV mA : Option ℝ) (p v t : Vec3) :
    arriveLaw mV mA p v t
      = clampLengthMax
          ((Vec3.smul (mV.getD 1000) (normalizeOrZero (t.sub p))).sub
            (Vec3.smul (1 + v.length * 10 / max (t.sub p).length 1) v))
          (mA.getD 100) := rfl

lemma seekLaw_eq_spec (mV mA : Option ℝ) (p v t : Vec3) :
    seekLaw mV mA p v t = seekLawSpec (mV.getD 1000) (mA.getD 100) p v t := rfl

lemma arriveLaw_eq_spec (mV mA : Option ℝ) (p v t : Vec3) :
    arriveLaw mV mA p v t = arriveLawSpec (mV.getD 1000) (mA.getD 100) p v t := rfl

/-- Both laws with absent caps coincide with the laws at the explicit default
caps 1000 / 100 (main.rs:399-400, 416-417). -/
lemma seekLaw_none_eq (p v t : Vec3) :
    seekLaw none none p v t = seekLaw (some 1000) (some 100) p v t := rfl

lemma arriveLaw_none_eq (p v t : Vec3) :
    arriveLaw none none p v t = arriveLaw (some 1000) (some 100) p v t := rfl

lemma seekLaw_some_y (mV mA b vy : ℝ) (hb : 0 < b) :
    seekLaw (some mV) (some mA) (Vec3.mk 0 0 0) (Vec3.mk 0 vy 0) (Vec3.mk 0 b 0)
      = clampLengthMax (Vec3.mk 0 (mV - vy) 0) mA := by
  unfold seekLaw
  simp only [Option.getD_some]
  rw [show (Vec3.mk 0 b 0).sub (Vec3.mk 0 0 0) = Vec3.mk 0 b 0 by
    unfold Vec3.sub; norm_num]
  rw [normalizeOrZero_y b hb]
  congr 1
  unfold Vec3.smul Vec3.sub
  norm_num

lemma arriveLaw_some_y (mV mA b vy : ℝ) (hb : 0 < b) :
    arriveLaw (some mV) (some mA) (Vec3.mk 0 0 0) (Vec3.mk 0 vy 0) (Vec3.mk 0 b 0)
      = clampLengthMax (Vec3.mk 0 (mV - (1 + |vy| * 10 / max b 1) * vy) 0) mA := by
  unfold arriveLaw
  simp only [Option.getD_some]
  rw [show (Vec3.mk 0 b 0).sub (Vec3.mk 0 0 0) = Vec3.mk 0 b 0 by
    unfold Vec3.sub; norm_num]
  rw [normalizeOrZero_y b hb, length_y vy, length_y b, abs_of_pos hb]
  congr 1
  unfold Vec3.smul Vec3.sub
  norm_num

lemma sub_self_vec (p : Vec3) : p.sub p = Vec3.zero := by
  unfold Vec3.sub Vec3.zero; simp

lemma zero_sub_zero : Vec3.zero.sub Vec3.zero = Vec3.zero := sub_self_vec Vec3.zero

/-- Scenario 1 evaluated: Seek from the origin at rest toward `(0,1000,0)`
under the default caps gives `(0,100,0)`. -/
lemma seek_scenario_eval :
    seekLaw none none (Vec3.mk 0 0 0) (Vec3.mk 0 0 0) (Vec3.mk 0 1000 0) = Vec3.mk 0 100 0 := by
  rw [seekLaw_none_eq, seekLaw_some_y 1000 100 1000 0 (by norm_num),
    show (1000 : ℝ) - 0 = 1000 by norm_num,
    clampLengthMax_y_of_gt 1000 100 (by norm_num)]
  have habs : |(1000 : ℝ)| = 1000 := abs_of_pos (by norm_num)
  rw [habs]
  norm_num

/-- Scenario 2 evaluated: Arrive at `(0,10,0)` while moving at `(0,500,0)`
under the default caps gives `(0,-100,0)`. -/
lemma arrive_scenario_eval :
    arriveLaw none none (Vec3.mk 0 0 0) (Vec3.mk 0 500 0) (Vec3.mk 0 10 0)
      = Vec3.mk 0 (-100) 0 := by
  rw [arriveLaw_none_eq, arriveLaw_some_y 1000 100 10 500 (by norm_num)]
  have habs : |(500 : ℝ)| = 500 := abs_of_pos (by norm_num)
  have hmax : max (10 : ℝ) 1 = 10 := max_eq_left (by norm_num)
  rw [habs, hmax, show (1000 : ℝ) - (1 + 500 * 10 / 10) * 500 = -249500 by norm_num,
    clampLengthMax_y_of_gt (-249500) 100 (by norm_num)]
  have habs2 : |(-249500 : ℝ)| = 249500 := by
    rw [abs_of_neg (by norm_num)]; norm_num
  rw [habs2]
  norm_num

/-- Arrive with absent caps from the origin at rest toward `(0,10000,0)` gives
`(0,100,0)`: the defaults in the Arrive arm are 1000 / 100. -/
lemma arrive_defaults_eval :
    arriveLaw none none (Vec3.mk 0 0 0) (Vec3.mk 0 0 0) (Vec3.mk 0 10000 0)
      = Vec3.mk 0 100 0 := by
  rw [arriveLaw_none_eq, arriveLaw_some_y 1000 100 10000 0 (by norm_num),
    show (1000 : ℝ) - (1 + |(0 : ℝ)| * 10 / max (10000 : ℝ) 1) * 0 = 1000 by norm_num,
    clampLengthMax_y_of_gt 1000 100 (by norm_num)]
  have habs : |(1000 : ℝ)| = 1000 := abs_of_pos (by norm_num)
  rw [habs]
  norm_num

/-- Arrive with the caps the spec claims as Arrive defaults (5000 / 200), on
the same input as `arrive_defaults_eval`, gives `(0,200,0)` instead. -/
lemma arrive_spec_defaults_eval :
    arriveLaw (some 5000) (some 200) (Vec3.mk 0 0 0) (Vec3.mk 0 0 0) (Vec3.mk 0 10000 0)
      = Vec3.mk 0 200 0 := by
  rw [arriveLaw_some_y 5000 200 10000 0 (by norm_num),
    show (5000 : ℝ) - (1 + |(0 : ℝ)| * 10 / max (10000 : ℝ) 1) * 0 = 5000 by norm_num,
    clampLengthMax_y_of_gt 5000 200 (by norm_num)]
  have habs : |(5000 : ℝ)| = 5000 := abs_of_pos (by norm_num)
  rw [habs]
  norm_num

/-! ### Claim theorems -/

/-- Claim C1: for an agent carrying a Seek behaviour whose target resolves, the
steering engine writes `clamp_magnitude(normalize_or_zero(target - self) *
max_velocity - velocity, max_acceleration)` to `acceleration.linear`; and the
Scenario-1 agent (origin, at rest, target `(0,1000,0)`, default caps 1000/100)
gets acceleration `(0,100,0)`: toward +Y with magnitude exactly 100. -/
theorem C1_seek_law (world : List WorldEntity) (tgt : Nat) (mV mA : Option ℝ)
    (p v t : Vec3) (h : targetQueryGet world tgt = some t) :
    steeringStep world (.seek tgt) p v mV mA
      = .ok (seekLawSpec (mV.getD 1000) (mA.getD 100) p v t)
    ∧ seekLaw none none (Vec3.mk 0 0 0) (Vec3.mk 0 0 0) (Vec3.mk 0 1000 0)
      = Vec3.mk 0 100 0 := by
  constructor
  · simp only [steeringStep, h]
    rfl
  · exact seek_scenario_eval

/-- Witness for C1 at a concrete world: the marker entity `0` at `(0,1000,0)`
resolves and the Scenario-1 agent's Seek step succeeds with the law's value. -/
theorem C1_seek_law_witness :
    targetQueryGet [⟨0, Vec3.mk 0 1000 0, true⟩] 0 = some (Vec3.mk 0 1000 0)
    ∧ steeringStep [⟨0, Vec3.mk 0 1000 0, true⟩] (.seek 0)
        (Vec3.mk 0 0 0) (Vec3.mk 0 0 0) none none
      = .ok (seekLawSpec 1000 100 (Vec3.mk 0 0 0) (Vec3.mk 0 0 0) (Vec3.mk 0 1000 0)) := by
  have hq : targetQueryGet [⟨0, Vec3.mk 0 1000 0, true⟩] 0 = some (Vec3.mk 0 1000 0) := rfl
  exact ⟨hq, (C1_seek_law _ 0 none none _ _ _ hq).1⟩

/-- Claim C2: for an agent carrying an Arrive behaviour whose target resolves,
the steering engine writes `clamp_magnitude(normalize_or_zero(difference) *
max_velocity - velocity * (1 + |velocity| * 10 / max(|difference|, 1)),
max_acceleration)`; and the Scenario-2 agent (`(0,0,0)`, moving at `(0,500,0)`,
target `(0,10,0)`) gets acceleration `(0,-100,0)`, whose +Y component opposes
the current velocity's. -/
theorem C2_arrive_law (world : List WorldEntity) (tgt : Nat) (fa : Option ℝ)
    (mV mA : Option ℝ) (p v t : Vec3) (h : targetQueryGet world tgt = some t) :
    steeringStep world (.arrive tgt fa) p v mV mA
      = .ok (arriveLawSpec (mV.getD 1000) (mA.getD 100) p v t)
    ∧ arriveLaw none none (Vec3.mk 0 0 0) (Vec3.mk 0 500 0) (Vec3.mk 0 10 0)
      = Vec3.mk 0 (-100) 0
    ∧ (arriveLaw none none (Vec3.mk 0 0 0) (Vec3.mk 0 500 0) (Vec3.mk 0 10 0)).y
        * (Vec3.mk 0 500 0).y < 0 := by
  refine ⟨?_, arrive_scenario_eval, ?_⟩
  · simp only [steeringStep, h]
    rfl
  · rw [arrive_scenario_eval]
    norm_num

/-- Witness for C2 at a concrete world: the marker entity `0` at `(0,10,0)`
resolves and the Scenario-2 agent's Arrive step succeeds with the law's value. -/
theorem C2_arrive_law_witness :
    targetQueryGet [⟨0, Vec3.mk 0 10 0, true⟩] 0 = some (Vec3.mk 0 10 0)
    ∧ steeringStep [⟨0, Vec3.mk 0 10 0, true⟩] (.arrive 0 none)
        (Vec3.mk 0 0 0) (Vec3.mk 0 500 0) none none
      = .ok (arriveLawSpec 1000 100 (Vec3.mk 0 0 0) (Vec3.mk 0 500 0) (Vec3.mk 0 10 0)) := by
  have hq : targetQueryGet [⟨0, Vec3.mk 0 10 0, true⟩] 0 = some (Vec3.mk 0 10 0) := rfl
  exact ⟨hq, (C2_arrive_law _ 0 none none none _ _ _ hq).1⟩

/-- Claim C5 counterexample: with no caps declared, the Arrive arm does not use
the claimed defaults 5000 / 200 — on the input (origin, at rest, target
`(0,10000,0)`) it produces `(0,100,0)`, while 5000 / 200 would produce
`(0,200,0)`. -/
theorem C5_defaults_counterexample :
    arriveLaw none none (Vec3.mk 0 0 0) (Vec3.mk 0 0 0) (Vec3.mk 0 10000 0)
      ≠ arriveLaw (some 5000) (some 200) (Vec3.mk 0 0 0) (Vec3.mk 0 0 0) (Vec3.mk 0 10000 0) := by
  rw [arrive_defaults_eval, arrive_spec_defaults_eval]
  simp [Vec3.mk.injEq]

/-- Claim C5 (amended): when the agent declares no caps, the Seek arm uses
`max_velocity = 1000` and `max_acceleration = 100`, and the Arrive arm uses the
same defaults 1000 / 100 (main.rs:416-417), not 5000 / 200. -/
theorem C5_defaults (p v t : Vec3) :
    seekLaw none none p v t = seekLaw (some 1000) (some 100) p v t
    ∧ arriveLaw none none p v t = arriveLaw (some 1000) (some 100) p v t :=
  ⟨seekLaw_none_eq p v t, arriveLaw_none_eq p v t⟩

/-- Claim C9 counterexample: with the target position equal to the agent
position but a nonzero velocity `(0,1,0)`, the Seek law produces the clamped
negated velocity `(0,-1,0)`, not the zero vector. -/
theorem C9_zero_diff_counterexample :
    seekLaw none none (Vec3.mk 0 0 0) (Vec3.mk 0 1 0) (Vec3.mk 0 0 0) ≠ Vec3.zero := by
  have heval : seekLaw none none (Vec3.mk 0 0 0) (Vec3.mk 0 1 0) (Vec3.mk 0 0 0)
      = Vec3.mk 0 (-1) 0 := by
    rw [seekLaw_def]
    rw [show (Vec3.mk 0 0 0).sub (Vec3.mk 0 0 0) = Vec3.zero from sub_self_vec _,
      normalizeOrZero_zero, smul_zero_vec,
      show Vec3.zero.sub (Vec3.mk 0 1 0) = Vec3.mk 0 (-1) 0 from by
        unfold Vec3.zero Vec3.sub; norm_num]
    apply clampLengthMax_of_le
    rw [lengthSquared_y]
    norm_num
  rw [heval]
  unfold Vec3.zero
  simp [Vec3.mk.injEq]

/-- Claim C9 (amended): with the target position equal to the agent position
and zero velocity, both the Seek law and the Arrive law produce the zero
vector, for any caps; the zero-length difference is normalized to the zero
vector rather than dividing by zero. -/
theorem C9_zero_diff (mV mA : Option ℝ) (p : Vec3) :
    seekLaw mV mA p Vec3.zero p = Vec3.zero
    ∧ arriveLaw mV mA p Vec3.zero p = Vec3.zero
    ∧ normalizeOrZero Vec3.zero = Vec3.zero := by
  refine ⟨?_, ?_, normalizeOrZero_zero⟩
  · rw [seekLaw_def]
    rw [sub_self_vec, normalizeOrZero_zero, smul_zero_vec, zero_sub_zero]
    exact clampLengthMax_zero _
  · rw [arriveLaw_def]
    rw [sub_self_vec, normalizeOrZero_zero, smul_zero_vec, smul_zero_vec, zero_sub_zero]
    exact clampLengthMax_zero _

/-- Claim C3: for every velocity, position and target input, the magnitude of
the acceleration written by the Seek law and by the Arrive law is at most the
effective `max_acceleration` (the agent's cap when present, otherwise the
default 100), provided that cap is nonnegative. -/
theorem C3_clamp_invariant (mV mA : Option ℝ) (p v t : Vec3)
    (h : 0 ≤ mA.getD 100) :
    (seekLaw mV mA p v t).length ≤ mA.getD 100
    ∧ (arriveLaw mV mA p v t).length ≤ mA.getD 100 := by
  constructor
  · rw [seekLaw_def]
    exact length_clampLengthMax_le _ _ h
  · rw [arriveLaw_def]
    exact length_clampLengthMax_le _ _ h

/-- Witness for C3 with no declared cap, at the Scenario-1 input. -/
theorem C3_clamp_invariant_witness :
    (0 : ℝ) ≤ (none : Option ℝ).getD 100
    ∧ (seekLaw none none (Vec3.mk 0 0 0) (Vec3.mk 0 0 0) (Vec3.mk 0 1000 0)).length
        ≤ (none : Option ℝ).getD 100
    ∧ (arriveLaw none none (Vec3.mk 0 0 0) (Vec3.mk 0 0 0) (Vec3.mk 0 1000 0)).length
        ≤ (none : Option ℝ).getD 100 := by
  have h : (0 : ℝ) ≤ (none : Option ℝ).getD 100 := by norm_num
  have hc := C3_clamp_invariant none none (Vec3.mk 0 0 0) (Vec3.mk 0 0 0) (Vec3.mk 0 1000 0) h
  exact ⟨h, hc.1, hc.2⟩

/-- Claim C4 counterexample: with a marker entity `0` present, a first agent
whose Seek target `7` is dangling makes the whole `steering_behaviour` tick
panic (`unwrap` on a failed lookup), so the second, healthy agent is not
updated either; and evaluating the unimplemented Flee variant panics via
`todo!()`.  The claim's "skipped for the current tick … other agents' updates
proceed … does not crash" is therefore false on this input. -/
theorem C4_crash_counterexample :
    steeringTick [⟨0, Vec3.zero, true⟩]
      [⟨.seek 7, Vec3.zero, Vec3.zero, none, none, Vec3.zero⟩,
        ⟨.seek 0, Vec3.zero, Vec3.zero, none, none, Vec3.zero⟩]
      = .error .unwrapFailed
    ∧ steeringStep [] (.flee 0) Vec3.zero Vec3.zero none none
      = .error .todoUnimplemented :=
  ⟨rfl, rfl⟩

/-- Claim C4 (amended): the steering update does abort the tick on a steering
error — when the leading agent's Seek or Arrive target does not resolve, the
`unwrap` panic makes the whole tick fail (no agent's update survives), and
every unimplemented variant (Pursue/Flee/Evade/FollowPath/Interpose/Hide)
panics via `todo!()` when evaluated. -/
theorem C4_panic_on_steering_error (world : List WorldEntity) (tgt : Nat)
    (fa : Option ℝ) (a : AgentState) (rest : List AgentState)
    (hb : a.behaviour = .seek tgt ∨ a.behaviour = .arrive tgt fa)
    (h : targetQueryGet world tgt = none) :
    steeringTick world (a :: rest) = .error .unwrapFailed
    ∧ ∀ p v mV mA md path idx t2,
        steeringStep world (.persue tgt md) p v mV mA = .error .todoUnimplemented
        ∧ steeringStep world (.flee tgt) p v mV mA = .error .todoUnimplemented
        ∧ steeringStep world (.evade tgt md) p v mV mA = .error .todoUnimplemented
        ∧ steeringStep world (.followPath path idx) p v mV mA = .error .todoUnimplemented
        ∧ steeringStep world (.interpose tgt t2) p v mV mA = .error .todoUnimplemented
        ∧ steeringStep world (.hide tgt) p v mV mA = .error .todoUnimplemented := by
  constructor
  · have hstep : steeringStep world a.behaviour a.position a.velocity
        a.maxVelocity a.maxAcceleration = .error .unwrapFailed := by
      rcases hb with hb | hb <;> rw [hb] <;> simp only [steeringStep, h]
    simp only [steeringTick, hstep]
  · intro p v mV mA md path idx t2
    exact ⟨rfl, rfl, rfl, rfl, rfl, rfl⟩

/-- Witness for C4: a concrete one-agent world with an empty entity set, where
the Seek target `3` is dangling and the tick fails with the unwrap panic. -/
theorem C4_panic_on_steering_error_witness :
    steeringTick [] [⟨.seek 3, Vec3.zero, Vec3.zero, none, none, Vec3.zero⟩]
      = .error .unwrapFailed
    ∧ steeringStep [] (.flee 3) Vec3.zero Vec3.zero none none
      = .error .todoUnimplemented := by
  have hc := C4_panic_on_steering_error [] 3 none
    ⟨.seek 3, Vec3.zero, Vec3.zero, none, none, Vec3.zero⟩ [] (Or.inl rfl) rfl
  exact ⟨hc.1, (hc.2 Vec3.zero Vec3.zero none none none [] 0 0).2.1⟩

lemma clockwiseAngle_eq (v : Vec3) :
    clockwiseAngle v
      = if angleFromYAxis v < 0 then 2 * Real.pi + angleFromYAxis v
        else angleFromYAxis v := rfl

lemma clockwiseAngle_nonneg (v : Vec3) : 0 ≤ clockwiseAngle v := by
  rw [clockwiseAngle_eq]
  have h1 : -Real.pi < angleFromYAxis v := Complex.neg_pi_lt_arg _
  have hπ : 0 < Real.pi := Real.pi_pos
  split_ifs with h
  · linarith
  · linarith

lemma clockwiseAngle_lt_two_pi (v : Vec3) : clockwiseAngle v < 2 * Real.pi := by
  rw [clockwiseAngle_eq]
  have h2 : angleFromYAxis v ≤ Real.pi := Complex.arg_le_pi _
  have hπ : 0 < Real.pi := Real.pi_pos
  split_ifs with h
  · linarith
  · linarith

/-- Claim C6: when the squared velocity magnitude exceeds `f32::EPSILON`, the
`orientation` system sets the rotation to the clockwise angle from the +Y
reference axis to the velocity's 2D projection (the library's signed angle,
plus 2π when negative), which always lies in `[0, 2π)`; otherwise the rotation
is left unchanged. -/
theorem C6_orientation_angle (v : Vec3) (rot : ℝ) :
    (v.lengthSquared > f32Epsilon →
      orientation v rot = clockwiseAngle v
      ∧ 0 ≤ clockwiseAngle v ∧ clockwiseAngle v < 2 * Real.pi)
    ∧ (¬ v.lengthSquared > f32Epsilon → orientation v rot = rot) := by
  constructor
  · intro h
    refine ⟨?_, clockwiseAngle_nonneg v, clockwiseAngle_lt_two_pi v⟩
    unfold orientation
    rw [if_pos h]
  · intro h
    unfold orientation
    rw [if_neg h]

/-- Witness for C6: velocity `(0,1,0)` updates the rotation to an angle in
`[0, 2π)`, and the zero velocity leaves the rotation `42` unchanged. -/
theorem C6_orientation_angle_witness :
    orientation (Vec3.mk 0 1 0) 42 = clockwiseAngle (Vec3.mk 0 1 0)
    ∧ 0 ≤ clockwiseAngle (Vec3.mk 0 1 0)
    ∧ clockwiseAngle (Vec3.mk 0 1 0) < 2 * Real.pi
    ∧ orientation (Vec3.mk 0 0 0) 42 = 42 := by
  have h1 := (C6_orientation_angle (Vec3.mk 0 1 0) 42).1
    (by norm_num [Vec3.lengthSquared, f32Epsilon])
  have h2 := (C6_orientation_angle (Vec3.mk 0 0 0) 42).2
    (by norm_num [Vec3.lengthSquared, f32Epsilon])
  exact ⟨h1.1, h1.2.1, h1.2.2, h2⟩

/-- Claim C7 counterexample: with no declared `MaxAcceleration` and zero
acceleration, `current_power` is the quotient `0 / 0` — `NaN` in the source's
`f32` arithmetic, `0` in the real-number model — and in either case not `1`,
so "power … equal to 1 always when the agent declares no MaxAcceleration" is
false. -/
theorem C7_power_counterexample : currentPower Vec3.zero none ≠ 1 := by
  unfold currentPower
  rw [show Vec3.zero.length = 0 from length_zero]
  norm_num

/-- Claim C7 (amended): the emission rate equals
`power × alignment × size × 200`; the alignment factor is at its maximum 5
when the wrapped heading-relative acceleration angle matches the nozzle's
mount angle exactly; and `power = 1` when the agent declares no
`MaxAcceleration` and the acceleration magnitude is nonzero (at zero
magnitude the source's quotient is `0/0`, not 1). -/
theorem C7_thruster_rate (shipAngle : ℝ) (accel : Vec3) (mA : Option ℝ)
    (th : ThrusterEffect) :
    thrusterRate shipAngle accel mA th
      = currentPower accel mA
        * alignement (wrappedAccelAngle shipAngle accel) th.angle * th.size * 200
    ∧ (wrappedAccelAngle shipAngle accel = th.angle →
        alignement (wrappedAccelAngle shipAngle accel) th.angle = 5)
    ∧ (accel.length ≠ 0 → currentPower accel none = 1) := by
  refine ⟨rfl, ?_, ?_⟩
  · intro h
    rw [h]
    unfold alignement
    rw [if_pos (by rw [sub_self, abs_zero])]
  · intro h
    unfold currentPower
    exact div_self h

/-- Witness for C7: acceleration `(0,1,0)` with no cap, and a nozzle mounted at
exactly the wrapped acceleration angle, reaches alignment 5 and power 1. -/
theorem C7_thruster_rate_witness :
    alignement (wrappedAccelAngle 0 (Vec3.mk 0 1 0)) (wrappedAccelAngle 0 (Vec3.mk 0 1 0)) = 5
    ∧ currentPower (Vec3.mk 0 1 0) none = 1
    ∧ thrusterRate 0 (Vec3.mk 0 1 0) none ⟨1, wrappedAccelAngle 0 (Vec3.mk 0 1 0)⟩
      = currentPower (Vec3.mk 0 1 0) none
        * alignement (wrappedAccelAngle 0 (Vec3.mk 0 1 0)) (wrappedAccelAngle 0 (Vec3.mk 0 1 0))
        * 1 * 200 := by
  have hc := C7_thruster_rate 0 (Vec3.mk 0 1 0) none ⟨1, wrappedAccelAngle 0 (Vec3.mk 0 1 0)⟩
  have hlen : (Vec3.mk 0 1 0).length ≠ 0 := by
    rw [length_y]
    norm_num
  exact ⟨hc.2.1 rfl, hc.2.2 hlen, hc.1⟩

/-- Claim C8: on a secondary-click-released event the marker moves to the last
known world cursor position when available and is unchanged when it is `none`;
with no release event the marker never moves; and Scenario 3: the marker at
`(100,100,0)` moves exactly to `(50,50,0)`. -/
theorem C8_marker_click (marker p : Vec3) (mouse : Option Vec3) :
    move_movement_marker_on_click true (some p) marker = p
    ∧ move_movement_marker_on_click true none marker = marker
    ∧ move_movement_marker_on_click false mouse marker = marker
    ∧ move_movement_marker_on_click true (some (Vec3.mk 50 50 0)) (Vec3.mk 100 100 0)
      = Vec3.mk 50 50 0 :=
  ⟨rfl, rfl, rfl, rfl⟩

/-- Claim C10: the steering engine's target lookup is filtered on
`With<MovementMarker>`, so it succeeds only for entities carrying the
`MovementMarker` component: when every live entity with the target id lacks
the component, the lookup is `none` and the Seek/Arrive steps fail with the
same unwrap panic as for a destroyed entity. -/
theorem C10_lookup_requires_marker (world : List WorldEntity) (tgt : Nat)
    (h : ∀ e ∈ world, e.id = tgt → e.isMovementMarker = false) :
    targetQueryGet world tgt = none
    ∧ ∀ p v mV mA,
        steeringStep world (.seek tgt) p v mV mA = .error .unwrapFailed
        ∧ steeringStep world (.arrive tgt none) p v mV mA = .error .unwrapFailed := by
  have hq : targetQueryGet world tgt = none := by
    unfold targetQueryGet
    rw [List.find?_eq_none.mpr]
    · rfl
    · intro e he
      rcases hid : (e.id == tgt) with _ | _
      · simp [hid]
      · have heq : e.id = tgt := by simpa using hid
        simp [hid, h e he heq]
  refine ⟨hq, ?_⟩
  intro p v mV mA
  constructor <;> simp only [steeringStep, hq]

/-- Witness for C10: a live entity with id 5 that is not the movement marker
fails to resolve, exactly as a destroyed entity would. -/
theorem C10_lookup_requires_marker_witness :
    targetQueryGet [⟨5, Vec3.mk 1 2 3, false⟩] 5 = none
    ∧ steeringStep [⟨5, Vec3.mk 1 2 3, false⟩] (.seek 5) Vec3.zero Vec3.zero none none
      = .error .unwrapFailed := by
  have hc := C10_lookup_requires_marker [⟨5, Vec3.mk 1 2 3, false⟩] 5
    (by
      intro e he _
      rw [List.mem_singleton] at he
      rw [he])
  exact ⟨hc.1, (hc.2 Vec3.zero Vec3.zero none none).1⟩

end Sebaka
